import Mathlib

/-!
Shallow embedding of `pydruid/db/sqlalchemy.py` (the Druid SQLAlchemy
dialect) and proofs of its specified properties.

Python values that the dialect places into the connect-argument dictionary
are heterogeneous (strings, ints, booleans, `None`, the two float-parsing
classes, the context dict), so they are modelled by the inductive `PyVal`.
Strings use Lean `String`; Python integers use `Int` (or `Nat` for ports);
Python dicts whose keys are strings are modelled as association lists or,
for the final keyword-argument dictionary, as a lookup function
`String -> Option PyVal` (matching dict lookup, with the fixed keys of the
literal overriding the splatted pass-through keys exactly as `{**a, k: v}`
does). Fallible calls (`connection.execute`) are modelled as functions
returning `Except` or plain result lists supplied by the caller.
-/

/-- A single apostrophe (U+0027), used when building SQL text and warning
messages that quote identifiers. -/
def singleQuote : String := String.singleton (Char.ofNat 39)

/-- Model of the heterogeneous Python values stored in the keyword-argument
dictionary built by `create_connect_args`. -/
inductive PyVal where
  | str (s : String)
  | int (n : Nat)
  | bool (b : Bool)
  | none
  | ctx (c : List (String × String))
  | decimalClass
  | floatClass
deriving DecidableEq, Repr

/-- Source: `RESERVED_SCHEMAS = ["INFORMATION_SCHEMA"]`. -/
def RESERVED_SCHEMAS : List String := ["INFORMATION_SCHEMA"]

/-- The generic SQLAlchemy type objects appearing as values of
`jdbc_type_map`, plus `NullType`, the fallback for unmapped codes. -/
inductive SqlaType where
  | BigInteger
  | String
  | Float
  | Boolean
  | DATE
  | TIMESTAMP
  | BLOB
  | NullType
deriving DecidableEq, Repr

/-- Source: the `jdbc_type_map` dict literal, modelled as an association
list with the entries in source order. -/
def jdbc_type_map : List (Int × SqlaType) :=
  [(-6, .BigInteger), (-5, .BigInteger), (1, .String), (3, .Float),
   (4, .BigInteger), (5, .BigInteger), (6, .Float), (7, .Float),
   (8, .Float), (12, .String), (16, .Boolean), (91, .DATE),
   (93, .TIMESTAMP), (1111, .BLOB)]

/-- A row of the `INFORMATION_SCHEMA.COLUMNS` projection, restricted to the
fields `_map_jdbc_type` reads. -/
structure ColumnsRow where
  COLUMN_NAME : String
  JDBC_TYPE : Int
deriving DecidableEq, Repr

/-- The warning text `util.warn` receives on an unmapped code: the message
Failed to map column (quoted COLUMN_NAME) with JDBC type (quoted JDBC_TYPE)
to a sqlalchemy type. The two adjacent Python string literals of the source
concatenate into this single format string. -/
def warn_message (row : ColumnsRow) : String :=
  "Failed to map column " ++ singleQuote ++ row.COLUMN_NAME ++ singleQuote
    ++ " with JDBC type " ++ singleQuote ++ toString row.JDBC_TYPE
    ++ singleQuote ++ " to a sqlalchemy type."

/-- Source: `DruidDialect._map_jdbc_type`. Returns the mapped type when the
code is a key of `jdbc_type_map`; otherwise warns and returns `NullType`.
The warnings emitted by `util.warn` are returned in the second component
(empty on a hit, the single warning on a miss). The Python function cannot
raise: both paths end in a plain `return`. -/
def _map_jdbc_type (row : ColumnsRow) : SqlaType × List String :=
  match jdbc_type_map.lookup row.JDBC_TYPE with
  | some t => (t, [])
  | none => (SqlaType.NullType, [warn_message row])

/-- Source: `UniversalSet.__contains__`, which ignores its item and returns
`True`. -/
def UniversalSet.containsItem {α : Type} (_item : α) : Bool := true

/-- Source: `DruidIdentifierPreparer.reserved_words = UniversalSet()`; the
membership test an identifier preparer performs on that set. -/
def DruidIdentifierPreparer.reserved_words_contains {α : Type} (item : α) : Bool :=
  UniversalSet.containsItem item

/-- The generic types whose `visit_*` renderers `DruidTypeCompiler`
defines or aliases. -/
inductive GenericType where
  | REAL
  | NUMERIC
  | DECIMAL
  | INTEGER
  | SMALLINT
  | BIGINT
  | BOOLEAN
  | TIMESTAMP
  | DATE
  | CHAR
  | NCHAR
  | VARCHAR
  | NVARCHAR
  | TEXT
  | DATETIME
  | TIME
  | BLOB
  | CLOB
  | NCLOB
  | VARBINARY
  | BINARY
deriving DecidableEq, Repr

/-- Source: `DruidTypeCompiler`. `visit_REAL` returns `"DOUBLE"`;
`visit_NUMERIC` returns `"LONG"` and is aliased for DECIMAL, INTEGER,
SMALLINT, BIGINT, BOOLEAN, TIMESTAMP and DATE; `visit_CHAR` returns
`"STRING"` and is aliased for NCHAR, VARCHAR, NVARCHAR and TEXT;
`visit_DATETIME` and `visit_TIME` return `"LONG"`; `visit_BLOB` returns
`"COMPLEX"` and is aliased for CLOB, NCLOB, VARBINARY and BINARY. -/
def DruidTypeCompiler.visit : GenericType → String
  | .REAL => "DOUBLE"
  | .NUMERIC => "LONG"
  | .DECIMAL => "LONG"
  | .INTEGER => "LONG"
  | .SMALLINT => "LONG"
  | .BIGINT => "LONG"
  | .BOOLEAN => "LONG"
  | .TIMESTAMP => "LONG"
  | .DATE => "LONG"
  | .CHAR => "STRING"
  | .NCHAR => "STRING"
  | .VARCHAR => "STRING"
  | .NVARCHAR => "STRING"
  | .TEXT => "STRING"
  | .DATETIME => "LONG"
  | .TIME => "LONG"
  | .BLOB => "COMPLEX"
  | .CLOB => "COMPLEX"
  | .NCLOB => "COMPLEX"
  | .VARBINARY => "COMPLEX"
  | .BINARY => "COMPLEX"

/-- The components of a SQLAlchemy connection URL that
`create_connect_args` reads. Absent components are `none`; SQLAlchemy
reports an absent port as `None` and credentials/database as `None` or a
string. -/
structure URL where
  host : Option String
  port : Option Nat
  username : Option String
  password : Option String
  database : Option String
  query : List (String × String)
deriving DecidableEq, Repr

/-- Python `dict.get(k)` on an association list with unique keys (a URL
query dict). -/
def queryGet (q : List (String × String)) (k : String) : Option String :=
  (q.find? (fun kv => kv.1 == k)).map (·.2)

/-- Source: the query-parameter keys consumed by `create_connect_args`,
`["ssl_verify_cert", "parse_float_as_decimal"]`. -/
def consumed_keys : List String := ["ssl_verify_cert", "parse_float_as_decimal"]

/-- Source: `standard_args = {k:v for k, v in url.query.items() if k not in
["ssl_verify_cert", "parse_float_as_decimal"]}`. -/
def standard_args (q : List (String × String)) : List (String × String) :=
  q.filter (fun kv => !(consumed_keys.contains kv.1))

/-- Python truthiness default `x or d` for an optional integer: `None` and
`0` are falsy. -/
def pyOrNat (x : Option Nat) (d : Nat) : Nat :=
  match x with
  | none => d
  | some n => if n = 0 then d else n

/-- Python `x or None` for an optional string: `None` and `""` are falsy. -/
def pyOrNone (x : Option String) : Option String :=
  match x with
  | none => none
  | some s => if s = "" then none else some s

/-- A Python value that is a string or `None`. -/
def optVal (x : Option String) : PyVal :=
  match x with
  | none => PyVal.none
  | some s => PyVal.str s

/-- A Python value that is a string or `None` where `None` is produced for
falsy input, per `url.username or None`. -/
def optValOrNone (x : Option String) : PyVal := optVal (pyOrNone x)

/-- The keyword-argument dictionary built by `create_connect_args`, as a
lookup function. The ten explicit keys of the dict literal override the
splatted `standard_args` exactly as `{**standard_args, "host": ..., ...}`
does; any other key falls through to the pass-through parameters. -/
def connect_kwargs (scheme : String) (context : List (String × String))
    (url : URL) : String → Option PyVal :=
  fun k =>
    if k == "host" then some (optVal url.host)
    else if k == "port" then some (PyVal.int (pyOrNat url.port 8082))
    else if k == "user" then some (optValOrNone url.username)
    else if k == "password" then some (optValOrNone url.password)
    else if k == "path" then some (optVal url.database)
    else if k == "scheme" then some (PyVal.str scheme)
    else if k == "context" then some (PyVal.ctx context)
    else if k == "header" then
      some (PyVal.bool (queryGet url.query "header" == some "true"))
    else if k == "parse_float" then
      some (if queryGet url.query "parse_float_as_decimal" == some "true"
            then PyVal.decimalClass else PyVal.floatClass)
    else if k == "ssl_verify_cert" then
      some (match queryGet url.query "ssl_verify_cert" with
            | some v => PyVal.str v
            | none => PyVal.bool true)
    else (queryGet (standard_args url.query) k).map PyVal.str

/-- Source: `DruidDialect.create_connect_args`, returning the pair
`([], kwargs)` of empty positional arguments and the keyword dictionary.
`scheme` is the dialect class attribute (`"http"` or `"https"`) and
`context` is the context mapping held by the dialect. -/
def create_connect_args (scheme : String) (context : List (String × String))
    (url : URL) : List PyVal × (String → Option PyVal) :=
  ([], connect_kwargs scheme context url)

/-- Source: `DruidDialect.do_ping`: execute `"SELECT 1"`, return `False`
if that raises any exception, `True` otherwise. The connection is modelled
by its `execute` method; an exception is the `Except.error` case. -/
def do_ping (execute : String → Except String Unit) : Bool :=
  match execute "SELECT 1" with
  | .ok _ => true
  | .error _ => false

/-- Source: the query text of `get_schema_names`. -/
def schemata_query : String := "SELECT SCHEMA_NAME FROM INFORMATION_SCHEMA.SCHEMATA"

/-- Source: `DruidDialect.get_schema_names`: run the SCHEMATA query and
keep, in order, every `SCHEMA_NAME` not in `RESERVED_SCHEMAS`. The
connection is modelled by a function from query text to the list of
`SCHEMA_NAME` values of the result rows. -/
def get_schema_names (execute : String → List String) : List String :=
  (execute schemata_query).filter (fun name => !(RESERVED_SCHEMAS.contains name))

/-- A row of the `has_table` result: the single boolean column aliased
`exists_`. -/
structure ExistsRow where
  exists_ : Bool
deriving DecidableEq, Repr

/-- Source: the SQL text `has_table` interpolates, including the exact
whitespace of the triple-quoted literal after `.format(table_name=...)`. -/
def has_table_query (table_name : String) : String :=
  "\n            SELECT COUNT(*) > 0 AS exists_\n              FROM INFORMATION_SCHEMA.TABLES\n             WHERE TABLE_NAME = "
    ++ singleQuote ++ table_name ++ singleQuote ++ "\n        "

/-- Source: `DruidDialect.has_table`. The `schema` parameter is accepted
and ignored. The connection is modelled by a function from query text to
result rows; `fetchone()` is `head?`, and the `None.exists_` attribute
error on an empty result is the `none` case. -/
def has_table (execute : String → List ExistsRow) (table_name : String)
    (_schema : Option String) : Option Bool :=
  ((execute (has_table_query table_name)).head?).map ExistsRow.exists_

/-- ASCII lowercase of one character: code points 65 to 90 shift by 32,
everything else is unchanged. Python `str.lower` agrees with this on every
string whose lowering can equal `"yes"`, the only comparison the dialect
performs. -/
def lowerChar (c : Char) : Char :=
  if 65 ≤ c.toNat ∧ c.toNat ≤ 90 then Char.ofNat (c.toNat + 32) else c

/-- Python `s.lower()`, mapped characterwise over the string. -/
def pyLower (s : String) : String := String.mk (s.data.map lowerChar)

/-- Source: `get_is_nullable`: `druid_is_nullable.lower() == "yes"`. -/
def get_is_nullable (druid_is_nullable : String) : Bool :=
  pyLower druid_is_nullable == "yes"

/-- Source: `get_default`: `str(druid_column_default) if
druid_column_default != "" else None`, with a string argument, for which
`str` is the identity. -/
def get_default (druid_column_default : String) : Option String :=
  if druid_column_default != "" then some druid_column_default else none

/-- Case-insensitive string equality, the spec-side notion used by the
claim about `get_is_nullable`. -/
def caseInsensitiveEq (a b : String) : Prop := pyLower a = pyLower b

/-- The URL of the connection-argument test:
druid://user:pw@host1:9000/mydb?header=true&ssl_verify_cert=false&custom=1 -/
def example_url : URL :=
  { host := some "host1", port := some 9000, username := some "user",
    password := some "pw", database := some "mydb",
    query := [("header", "true"), ("ssl_verify_cert", "false"), ("custom", "1")] }

/-- A URL whose port, username and password are present but falsy: explicit
port `0` and empty credential strings. -/
def falsy_url : URL :=
  { host := some "host1", port := some 0, username := some "",
    password := some "", database := some "mydb", query := [] }

/-- C1: every JDBC code of the fixed table maps to exactly the documented
generic type and emits no warning, and every integer code outside the table
yields the null type tag together with exactly one warning naming the
column and the code; `_map_jdbc_type` is a total function, so it never
raises. -/
theorem map_jdbc_type_spec :
    ((∀ n, _map_jdbc_type ⟨n, -6⟩ = (SqlaType.BigInteger, [])) ∧
     (∀ n, _map_jdbc_type ⟨n, -5⟩ = (SqlaType.BigInteger, [])) ∧
     (∀ n, _map_jdbc_type ⟨n, 1⟩ = (SqlaType.String, [])) ∧
     (∀ n, _map_jdbc_type ⟨n, 3⟩ = (SqlaType.Float, [])) ∧
     (∀ n, _map_jdbc_type ⟨n, 4⟩ = (SqlaType.BigInteger, [])) ∧
     (∀ n, _map_jdbc_type ⟨n, 5⟩ = (SqlaType.BigInteger, [])) ∧
     (∀ n, _map_jdbc_type ⟨n, 6⟩ = (SqlaType.Float, [])) ∧
     (∀ n, _map_jdbc_type ⟨n, 7⟩ = (SqlaType.Float, [])) ∧
     (∀ n, _map_jdbc_type ⟨n, 8⟩ = (SqlaType.Float, [])) ∧
     (∀ n, _map_jdbc_type ⟨n, 12⟩ = (SqlaType.String, [])) ∧
     (∀ n, _map_jdbc_type ⟨n, 16⟩ = (SqlaType.Boolean, [])) ∧
     (∀ n, _map_jdbc_type ⟨n, 91⟩ = (SqlaType.DATE, [])) ∧
     (∀ n, _map_jdbc_type ⟨n, 93⟩ = (SqlaType.TIMESTAMP, [])) ∧
     (∀ n, _map_jdbc_type ⟨n, 1111⟩ = (SqlaType.BLOB, []))) ∧
    (∀ row : ColumnsRow,
      row.JDBC_TYPE ∉ ([-6, -5, 1, 3, 4, 5, 6, 7, 8, 12, 16, 91, 93, 1111] : List Int) →
      _map_jdbc_type row = (SqlaType.NullType, [warn_message row])) := by
  refine ⟨⟨fun n => rfl, fun n => rfl, fun n => rfl, fun n => rfl, fun n => rfl,
    fun n => rfl, fun n => rfl, fun n => rfl, fun n => rfl, fun n => rfl,
    fun n => rfl, fun n => rfl, fun n => rfl, fun n => rfl⟩, ?_⟩
  intro row h
  simp only [List.mem_cons, List.not_mem_nil, or_false, not_or] at h
  obtain ⟨h1, h2, h3, h4, h5, h6, h7, h8, h9, h10, h11, h12, h13, h14⟩ := h
  have hl : jdbc_type_map.lookup row.JDBC_TYPE = none := by
    simp [jdbc_type_map, List.lookup, beq_eq_false_iff_ne.mpr h1,
      beq_eq_false_iff_ne.mpr h2, beq_eq_false_iff_ne.mpr h3,
      beq_eq_false_iff_ne.mpr h4, beq_eq_false_iff_ne.mpr h5,
      beq_eq_false_iff_ne.mpr h6, beq_eq_false_iff_ne.mpr h7,
      beq_eq_false_iff_ne.mpr h8, beq_eq_false_iff_ne.mpr h9,
      beq_eq_false_iff_ne.mpr h10, beq_eq_false_iff_ne.mpr h11,
      beq_eq_false_iff_ne.mpr h12, beq_eq_false_iff_ne.mpr h13,
      beq_eq_false_iff_ne.mpr h14]
  simp [_map_jdbc_type, hl]

/-- Witness for C1: one mapped code and one unmapped code evaluated at
concrete rows. -/
theorem map_jdbc_type_spec_witness :
    _map_jdbc_type ⟨"ts", 93⟩ = (SqlaType.TIMESTAMP, []) ∧
    _map_jdbc_type ⟨"col", 2⟩ = (SqlaType.NullType, [warn_message ⟨"col", 2⟩]) :=
  ⟨map_jdbc_type_spec.1.2.2.2.2.2.2.2.2.2.2.2.2.1 "ts",
   map_jdbc_type_spec.2 ⟨"col", 2⟩ (by decide)⟩

/-- C2: on the URL
druid://user:pw@host1:9000/mydb?header=true&ssl_verify_cert=false&custom=1
the builder returns no positional arguments and keyword arguments with
host, port, user, password, path, a boolean header, the raw query-string
value of ssl_verify_cert and the pass-through key custom; the two consumed
query keys never appear among the pass-through parameters; and every URL
without an explicit port gets port 8082. -/
theorem create_connect_args_spec :
    ((create_connect_args "http" [] example_url).1 = [] ∧
     (create_connect_args "http" [] example_url).2 "host" = some (PyVal.str "host1") ∧
     (create_connect_args "http" [] example_url).2 "port" = some (PyVal.int 9000) ∧
     (create_connect_args "http" [] example_url).2 "user" = some (PyVal.str "user") ∧
     (create_connect_args "http" [] example_url).2 "password" = some (PyVal.str "pw") ∧
     (create_connect_args "http" [] example_url).2 "path" = some (PyVal.str "mydb") ∧
     (create_connect_args "http" [] example_url).2 "header" = some (PyVal.bool true) ∧
     (create_connect_args "http" [] example_url).2 "ssl_verify_cert" = some (PyVal.str "false") ∧
     (create_connect_args "http" [] example_url).2 "custom" = some (PyVal.str "1")) ∧
    (∀ q : List (String × String),
      "ssl_verify_cert" ∉ (standard_args q).map Prod.fst ∧
      "parse_float_as_decimal" ∉ (standard_args q).map Prod.fst) ∧
    (∀ (scheme : String) (context : List (String × String)) (url : URL),
      url.port = none →
      (create_connect_args scheme context url).2 "port" = some (PyVal.int 8082)) := by
  refine ⟨by decide, ?_, ?_⟩
  · intro q
    constructor <;>
      · intro hmem
        simp [standard_args, consumed_keys, List.mem_map, List.mem_filter] at hmem
  · intro scheme context url h
    have hp : (create_connect_args scheme context url).2 "port" =
        some (PyVal.int (pyOrNat url.port 8082)) := rfl
    rw [hp, h]
    rfl

/-- Witness for C2: the example URL with its port removed receives the
default port 8082. -/
theorem create_connect_args_spec_witness :
    (create_connect_args "http" [] { example_url with port := none }).2 "port" =
      some (PyVal.int 8082) :=
  create_connect_args_spec.2.2 "http" [] { example_url with port := none } rfl

/-- C3: `get_default` sends the empty string to `None` and is the identity
on every non-empty string. -/
theorem get_default_spec :
    get_default "" = none ∧ ∀ s : String, s ≠ "" → get_default s = some s := by
  refine ⟨rfl, fun s h => ?_⟩
  simp [get_default, h]

/-- Witness for C3: the literal string None is a valid non-empty default
and round-trips unchanged. -/
theorem get_default_spec_witness : get_default "None" = some "None" :=
  get_default_spec.2 "None" (by decide)

/-- C4: `get_is_nullable` returns true exactly on strings that equal yes
case-insensitively; NO, the empty string and maybe give false. -/
theorem get_is_nullable_spec :
    (∀ s : String, get_is_nullable s = true ↔ caseInsensitiveEq s "yes") ∧
    get_is_nullable "NO" = false ∧
    get_is_nullable "" = false ∧
    get_is_nullable "maybe" = false ∧
    get_is_nullable "YES" = true ∧
    get_is_nullable "Yes" = true := by
  have hy : pyLower "yes" = "yes" := rfl
  refine ⟨fun s => ?_, by decide, by decide, by decide, by decide, by decide⟩
  simp [get_is_nullable, caseInsensitiveEq, hy]

/-- C5: `get_schema_names` removes exactly the name INFORMATION_SCHEMA
from the rows of the SCHEMATA query, keeping every other name with its
multiplicity, in order (the result is a sublist of the input). -/
theorem get_schema_names_spec :
    ∀ execute : String → List String,
      get_schema_names execute =
        (execute schemata_query).filter (fun name => name != "INFORMATION_SCHEMA") ∧
      (get_schema_names execute).Sublist (execute schemata_query) := by
  intro execute
  constructor
  · unfold get_schema_names
    apply List.filter_congr
    intro x _
    cases hx : x == "INFORMATION_SCHEMA" <;>
      simp [RESERVED_SCHEMAS, List.contains, List.elem, bne, hx]
  · exact List.filter_sublist _

/-- C6: the type compiler renders real as DOUBLE, the whole numeric and
temporal family as the identical literal LONG, and the whole binary family
as COMPLEX. -/
theorem druid_type_compiler_spec :
    DruidTypeCompiler.visit .REAL = "DOUBLE" ∧
    DruidTypeCompiler.visit .DECIMAL = "LONG" ∧
    DruidTypeCompiler.visit .INTEGER = "LONG" ∧
    DruidTypeCompiler.visit .BOOLEAN = "LONG" ∧
    DruidTypeCompiler.visit .NUMERIC = "LONG" ∧
    DruidTypeCompiler.visit .SMALLINT = "LONG" ∧
    DruidTypeCompiler.visit .BIGINT = "LONG" ∧
    DruidTypeCompiler.visit .TIMESTAMP = "LONG" ∧
    DruidTypeCompiler.visit .DATE = "LONG" ∧
    DruidTypeCompiler.visit .DATETIME = "LONG" ∧
    DruidTypeCompiler.visit .TIME = "LONG" ∧
    DruidTypeCompiler.visit .BLOB = "COMPLEX" ∧
    DruidTypeCompiler.visit .CLOB = "COMPLEX" ∧
    DruidTypeCompiler.visit .NCLOB = "COMPLEX" ∧
    DruidTypeCompiler.visit .BINARY = "COMPLEX" ∧
    DruidTypeCompiler.visit .VARBINARY = "COMPLEX" := by
  decide

/-- C7: the reserved-word membership test of the identifier preparer is
true on every string, among them the empty string, strings with whitespace
and SQL keywords, so every identifier requires quoting. -/
theorem reserved_words_contains_spec :
    (∀ s : String, DruidIdentifierPreparer.reserved_words_contains s = true) ∧
    DruidIdentifierPreparer.reserved_words_contains "" = true ∧
    DruidIdentifierPreparer.reserved_words_contains "a b c" = true ∧
    DruidIdentifierPreparer.reserved_words_contains "SELECT" = true :=
  ⟨fun _ => rfl, rfl, rfl, rfl⟩

/-- C8: `do_ping` runs SELECT 1 on the supplied connection, returns true
when that call succeeds and false when it raises any exception, which is
swallowed rather than propagated (the function is total and boolean). -/
theorem do_ping_spec :
    ∀ execute : String → Except String Unit,
      ((∃ r, execute "SELECT 1" = Except.ok r) → do_ping execute = true) ∧
      (∀ e, execute "SELECT 1" = Except.error e → do_ping execute = false) := by
  intro execute
  constructor
  · rintro ⟨r, hr⟩
    simp [do_ping, hr]
  · intro e he
    simp [do_ping, he]

/-- Witness for C8: a connection whose execute succeeds pings true and one
that raises pings false. -/
theorem do_ping_spec_witness :
    do_ping (fun _ => Except.ok ()) = true ∧
    do_ping (fun _ => Except.error "down") = false :=
  ⟨(do_ping_spec (fun _ => Except.ok ())).1 ⟨(), rfl⟩,
   (do_ping_spec (fun _ => Except.error "down")).2 "down" rfl⟩

/-- C9: `has_table` evaluates exactly the COUNT query built from the table
name and returns its boolean; the accepted schema parameter influences
neither the SQL text nor the result, so any two schema values give the
identical outcome. -/
theorem has_table_spec :
    ∀ (execute : String → List ExistsRow) (table_name : String)
      (s1 s2 : Option String),
      has_table execute table_name s1 = has_table execute table_name s2 ∧
      has_table execute table_name s1 =
        ((execute (has_table_query table_name)).head?).map ExistsRow.exists_ :=
  fun _ _ _ _ => ⟨rfl, rfl⟩

/-- C10: the connect-argument defaults apply to falsy present fields, not
only absent ones: explicit port 0 becomes 8082 and empty-string username
or password become None. -/
theorem create_connect_args_falsy_defaults :
    ∀ (scheme : String) (context : List (String × String)) (url : URL),
      (url.port = some 0 →
        (create_connect_args scheme context url).2 "port" = some (PyVal.int 8082)) ∧
      (url.username = some "" →
        (create_connect_args scheme context url).2 "user" = some PyVal.none) ∧
      (url.password = some "" →
        (create_connect_args scheme context url).2 "password" = some PyVal.none) := by
  intro scheme context url
  refine ⟨fun h => ?_, fun h => ?_, fun h => ?_⟩
  · have hp : (create_connect_args scheme context url).2 "port" =
        some (PyVal.int (pyOrNat url.port 8082)) := rfl
    rw [hp, h]
    rfl
  · have hu : (create_connect_args scheme context url).2 "user" =
        some (optValOrNone url.username) := rfl
    rw [hu, h]
    rfl
  · have hw : (create_connect_args scheme context url).2 "password" =
        some (optValOrNone url.password) := rfl
    rw [hw, h]
    rfl

/-- Witness for C10: the falsy URL receives port 8082 and None credentials. -/
theorem create_connect_args_falsy_defaults_witness :
    (create_connect_args "http" [] falsy_url).2 "port" = some (PyVal.int 8082) ∧
    (create_connect_args "http" [] falsy_url).2 "user" = some PyVal.none ∧
    (create_connect_args "http" [] falsy_url).2 "password" = some PyVal.none :=
  ⟨(create_connect_args_falsy_defaults "http" [] falsy_url).1 rfl,
   (create_connect_args_falsy_defaults "http" [] falsy_url).2.1 rfl,
   (create_connect_args_falsy_defaults "http" [] falsy_url).2.2 rfl⟩
